import Mathlib

/-!
# Verification of the AI/ML Salary Dashboard pipeline

Shallow embedding of `src/Streamlit_app.py`: a linear pandas pipeline that
loads a salary table, enriches the ISO alpha-2 residence code into a display
name, filters by (year, country set, experience-level set), and computes three
median aggregates (trend by year×level, top-10 job titles, top-20 countries),
plus a "highest paid job" summary card.

Modelling conventions:
* a DataFrame is a `List` of rows, in file order;
* `pycountry.countries` is an abstract association list `List (String × String)`
  from alpha-2 code to display name;
* `Series.median` sorts the values and takes the middle element (odd count) or
  the mean of the two central elements (even count), as pandas does;
* `groupby(key)` (pandas default `sort=True`) produces one row per distinct
  key, keys in ascending order;
* `sort_values(ascending=False)` is modelled as a stable ascending sort
  followed by reversal: pandas computes an ascending argsort of the values and
  reverses the resulting indexer, so tied entries come out in reverse of their
  pre-sort order (pandas' default `kind="quicksort"` makes no stability
  promise at all; the model fixes the deterministic variant matching the
  stable kinds); all sorts are `List.insertionSort`, a stable sort;
* `.head(n)` is `List.take n`;
* `.iloc[0]` on a possibly-empty frame is `List.head?`; `none` models the
  `IndexError` pandas raises there;
* Python `int()` truncates toward zero, modelled by `Int.tdiv` on the
  rational's numerator and denominator.
-/

/-- One row of `salaries.csv` as the dashboard reads it (the columns the code
touches): `work_year`, `experience_level`, `employee_residence`, `job_title`,
`salary_in_usd`. Salaries are modelled as rationals so that medians of
even-count groups are exact. -/
structure SrcRow where
  work_year : Nat
  experience_level : String
  employee_residence : String
  job_title : String
  salary_in_usd : ℚ
deriving DecidableEq, Repr

/-- A row after line 31 (`df["country_name"] = ...`) added the derived
`country_name` column. -/
structure Row where
  work_year : Nat
  experience_level : String
  employee_residence : String
  job_title : String
  salary_in_usd : ℚ
  country_name : String
deriving DecidableEq, Repr

/-- The `pycountry.countries.get(alpha_2=code)` lookup against an abstract ISO
registry (association list code ↦ display name): first entry whose code
matches, if any. -/
def lookupName (registry : List (String × String)) (code : String) : Option String :=
  (registry.find? (fun p => p.1 == code)).map (fun p => p.2)

/-- Lines 25-29, `code_to_country`: return the registry display name for the
code; the bare `except` turns any lookup miss (`.get` returning `None`, so
`.name` raises `AttributeError`) into the fallback `return code`. A total
function from string to string. -/
def code_to_country (registry : List (String × String)) (code : String) : String :=
  match lookupName registry code with
  | some name => name
  | none => code

/-- Line 31: enrich one record with the derived `country_name` column; every
source field is copied unchanged. -/
def enrich (registry : List (String × String)) (r : SrcRow) : Row :=
  { work_year := r.work_year
    experience_level := r.experience_level
    employee_residence := r.employee_residence
    job_title := r.job_title
    salary_in_usd := r.salary_in_usd
    country_name := code_to_country registry r.employee_residence }

/-- Lines 68-72, `df_f`: rows whose `work_year` equals the selected year, whose
`country_name` is in the selected country list and whose `experience_level` is
in the selected level list (`isin` = membership). -/
def df_f (df : List Row) (selected_year : Nat) (selected_country : List String)
    (selected_exp : List String) : List Row :=
  df.filter (fun r =>
    decide (r.work_year = selected_year) &&
    selected_country.contains r.country_name &&
    selected_exp.contains r.experience_level)

/-- pandas `Series.median`: sort the observations ascending; an odd-count
series yields the middle element, an even-count series the mean of the two
central elements. (The dashboard only applies it to non-empty groups; on `[]`
the `getD` defaults are never reached.) -/
def median (l : List ℚ) : ℚ :=
  let s := l.insertionSort (· ≤ ·)
  if s.length % 2 = 1 then s.getD (s.length / 2) 0
  else (s.getD (s.length / 2 - 1) 0 + s.getD (s.length / 2) 0) / 2

/-- Ascending order on strings by code points (lexicographic on the character
list), the order Python/pandas use to sort string group keys. -/
def strLE (a b : String) : Prop :=
  a.data ≤ b.data

instance : DecidableRel strLE := fun a b => by
  unfold strLE; infer_instance

instance : IsTotal String strLE :=
  ⟨fun a b => le_total a.data b.data⟩

instance : IsTrans String strLE :=
  ⟨fun _ _ _ h1 h2 => le_trans h1 h2⟩

/-- Lexicographic order on (year, level) pairs: how pandas sorts the two-level
`groupby(["work_year", "experience_level"])` index. -/
def pairLE (a b : Nat × String) : Prop :=
  a.1 < b.1 ∨ (a.1 = b.1 ∧ strLE a.2 b.2)

instance : DecidableRel pairLE := fun a b => by
  unfold pairLE; infer_instance

instance : IsTotal (Nat × String) pairLE where
  total a b := by
    rcases Nat.lt_trichotomy a.1 b.1 with h | h | h
    · exact Or.inl (Or.inl h)
    · rcases le_total a.2.data b.2.data with h2 | h2
      · exact Or.inl (Or.inr ⟨h, h2⟩)
      · exact Or.inr (Or.inr ⟨h.symm, h2⟩)
    · exact Or.inr (Or.inl h)

instance : IsTrans (Nat × String) pairLE where
  trans a b c hab hbc := by
    rcases hab with h | ⟨h, h2⟩ <;> rcases hbc with h' | ⟨h', h2'⟩
    · exact Or.inl (h.trans h')
    · exact Or.inl (h' ▸ h)
    · exact Or.inl (h ▸ h')
    · exact Or.inr ⟨h.trans h', le_trans h2 h2'⟩

/-- The distinct values of `rows.map key` in ascending `r` order: the group
keys produced by pandas `groupby` with its default `sort=True`. -/
def groupKeys {κ : Type} [DecidableEq κ] (r : κ → κ → Prop) [DecidableRel r]
    (key : Row → κ) (rows : List Row) : List κ :=
  ((rows.map key).dedup).insertionSort r

/-- Pandas `rows.groupby(key)["salary_in_usd"].median().reset_index()`: one
pair per distinct key (ascending key order), with the median salary of that
key's group. -/
def groupbyMedian {κ : Type} [DecidableEq κ] (r : κ → κ → Prop) [DecidableRel r]
    (key : Row → κ) (rows : List Row) : List (κ × ℚ) :=
  (groupKeys r key rows).map (fun k =>
    (k, median ((rows.filter (fun row => decide (key row = k))).map Row.salary_in_usd)))

/-- Pandas `.sort_values(ascending=False)` on the median column: pandas takes
an ascending argsort of the values and reverses the indexer, so the model is a
stable ascending sort on the value component followed by `reverse`. -/
def sortValuesDesc {κ : Type} (l : List (κ × ℚ)) : List (κ × ℚ) :=
  (l.insertionSort (fun a b => a.2 ≤ b.2)).reverse

/-- Lines 79-84, `trend`: only the experience-level filter is applied to the
full dataset (the year and country selections are ignored), then group by the
pair (`work_year`, `experience_level`) and take the median salary per group.
`reset_index` keeps the ascending lexicographic key order. -/
def trend (df : List Row) (selected_exp : List String) : List ((Nat × String) × ℚ) :=
  groupbyMedian pairLE (fun r => (r.work_year, r.experience_level))
    (df.filter (fun r => selected_exp.contains r.experience_level))

/-- Lines 114-120, `job_salary`: group the filtered view by `job_title`, take
the median salary per title, sort descending by median, keep the first 10. -/
def job_salary (dff : List Row) : List (String × ℚ) :=
  (sortValuesDesc (groupbyMedian strLE Row.job_title dff)).take 10

/-- Lines 168-174, `country_salary`: group the filtered view by
`country_name`, take the median salary per country, sort descending, keep the
first 20. -/
def country_salary (dff : List Row) : List (String × ℚ) :=
  (sortValuesDesc (groupbyMedian strLE Row.country_name dff)).take 20

/-- Line 123, `top_job = job_salary.iloc[0]["job_title"]`: `none` models the
`IndexError` raised when `job_salary` has no rows. -/
def top_job (js : List (String × ℚ)) : Option String :=
  js.head?.map (fun p => p.1)

/-- Line 124, `top_salary = job_salary.iloc[0]["salary_in_usd"]`. -/
def top_salary (js : List (String × ℚ)) : Option ℚ :=
  js.head?.map (fun p => p.2)

/-- Python `int()` on a rational: truncation toward zero. -/
def pyInt (q : ℚ) : ℤ :=
  q.num.tdiv q.den

/-- Lines 151-162, the "Highest Paid Job" summary card: the job title of the
first aggregate row together with the displayed salary figure
`int(top_salary)` (the `:,` thousands separator only affects digit grouping,
not the numeric value). `none` models the `IndexError` of `iloc[0]` on an
empty aggregate. -/
def highestPaidCard (js : List (String × ℚ)) : Option (String × ℤ) :=
  js.head?.map (fun p => (p.1, pyInt p.2))

/-- Line 51, `countries = sorted(df["country_name"].unique())`: the full
default of the country multi-select. -/
def fullCountrySet (df : List Row) : List String :=
  ((df.map Row.country_name).dedup).insertionSort strLE

/-- Line 58, `experience_levels = sorted(df["experience_level"].unique())`:
the full default of the experience-level multi-select. -/
def fullExpSet (df : List Row) : List String :=
  ((df.map Row.experience_level).dedup).insertionSort strLE

/-! ## Sample data used by witnesses and counterexamples -/

/-- A concrete enriched row; fields can be overridden with `with`. -/
def baseRow : Row :=
  { work_year := 2023
    experience_level := "SE"
    employee_residence := "US"
    job_title := "Data Scientist"
    salary_in_usd := 150000
    country_name := "United States" }

/-- A two-row filtered view whose two job-title groups ("A" first, "B"
second in encounter order) have the same median salary; the rows also carry
two distinct country names ("X", "Y") with the same tie. -/
def tieDff : List Row :=
  [{ baseRow with job_title := "A", salary_in_usd := 100, country_name := "X" },
   { baseRow with job_title := "B", salary_in_usd := 100, country_name := "Y" }]

/-- A one-job filtered view whose two observations average to the non-integer
median 160000.5 = 320001/2. -/
def halfDff : List Row :=
  [{ baseRow with salary_in_usd := 150000 },
   { baseRow with salary_in_usd := 170001 }]

/-- A tiny concrete ISO registry fragment. -/
def sampleRegistry : List (String × String) :=
  [("US", "United States"), ("DE", "Germany")]

/-- A concrete un-enriched source record for witnesses. -/
def srcSample : SrcRow :=
  { work_year := 2023
    experience_level := "SE"
    employee_residence := "US"
    job_title := "Data Scientist"
    salary_in_usd := 150000 }

/-- A two-row view whose rows fall in distinct (year, level) trend groups, so
every group is a singleton. -/
def mixDff : List Row :=
  [{ baseRow with experience_level := "EN", salary_in_usd := 100 },
   { baseRow with experience_level := "SE", salary_in_usd := 200 }]

/-! ## Helper lemmas about the aggregation pipeline -/

theorem mem_groupKeys {κ : Type} [DecidableEq κ] (r : κ → κ → Prop) [DecidableRel r]
    (key : Row → κ) (rows : List Row) (k : κ) :
    k ∈ groupKeys r key rows ↔ k ∈ rows.map key := by
  simp [groupKeys, List.mem_insertionSort, List.mem_dedup]

theorem mem_groupbyMedian {κ : Type} [DecidableEq κ] (r : κ → κ → Prop) [DecidableRel r]
    (key : Row → κ) (rows : List Row) (k : κ) (v : ℚ) :
    (k, v) ∈ groupbyMedian r key rows ↔
      k ∈ rows.map key ∧
      v = median ((rows.filter (fun row => decide (key row = k))).map Row.salary_in_usd) := by
  constructor
  · intro h
    simp only [groupbyMedian, List.mem_map, Prod.mk.injEq] at h
    obtain ⟨k₂, hk₂, hfst, hsnd⟩ := h
    subst hfst
    exact ⟨(mem_groupKeys r key rows k₂).mp hk₂, hsnd.symm⟩
  · rintro ⟨hk, rfl⟩
    simp only [groupbyMedian, List.mem_map]
    exact ⟨k, (mem_groupKeys r key rows k).mpr hk, rfl⟩

theorem mem_sortValuesDesc {κ : Type} (l : List (κ × ℚ)) (p : κ × ℚ) :
    p ∈ sortValuesDesc l ↔ p ∈ l := by
  simp [sortValuesDesc, List.mem_insertionSort]

theorem length_sortValuesDesc {κ : Type} (l : List (κ × ℚ)) :
    (sortValuesDesc l).length = l.length := by
  simp [sortValuesDesc]

theorem length_groupbyMedian {κ : Type} [DecidableEq κ] (r : κ → κ → Prop) [DecidableRel r]
    (key : Row → κ) (rows : List Row) :
    (groupbyMedian r key rows).length = (rows.map key).dedup.length := by
  simp [groupbyMedian, groupKeys]


/-! ## Claims -/

/-- C1: for every filter selection matching zero rows (here: an empty country
set or an empty experience-level set), the filtered view and all aggregates
are empty, and the summary-card access `job_salary.iloc[0]` (line 123) finds
no row: `top_job` is `none`, the model of the `IndexError` pandas raises
there. So the aggregates are indeed empty, but the card does *not* render
with no data — the program fails at line 123. -/
theorem c1_zero_row_selection (df : List Row) (y : Nat) (cs es : List String) :
    df_f df y [] es = [] ∧
    df_f df y cs [] = [] ∧
    job_salary ([] : List Row) = [] ∧
    country_salary ([] : List Row) = [] ∧
    top_job (job_salary ([] : List Row)) = none := by
  refine ⟨?_, ?_, rfl, rfl, rfl⟩ <;> simp [df_f]

/-- C2: the country enricher is total: when the registry lookup yields a
display name the enricher returns it, and on any lookup miss it returns the
input code unchanged (`code_to_country` is a total Lean function
`String → String`; the bare `except` in lines 28-29 means no exception
escapes). -/
theorem c2_code_to_country_total (registry : List (String × String)) (code : String) :
    (∀ name, lookupName registry code = some name →
      code_to_country registry code = name) ∧
    (lookupName registry code = none → code_to_country registry code = code) := by
  refine ⟨fun name h => ?_, fun h => ?_⟩ <;> simp [code_to_country, h]

theorem c2_witness :
    code_to_country sampleRegistry ("US") = "United States" ∧
    code_to_country sampleRegistry ("ZZ") = "ZZ" :=
  ⟨(c2_code_to_country_total sampleRegistry ("US")).1 ("United States") (by decide),
   (c2_code_to_country_total sampleRegistry ("ZZ")).2 (by decide)⟩

/-- C3: the filtered view `df_f` contains exactly the rows of the enriched
table whose `work_year` equals the selected year, whose `country_name` is in
the selected country set and whose `experience_level` is in the selected
level set. -/
theorem c3_filtered_view_membership (df : List Row) (y : Nat) (cs es : List String)
    (r : Row) :
    r ∈ df_f df y cs es ↔
      r ∈ df ∧ r.work_year = y ∧ r.country_name ∈ cs ∧ r.experience_level ∈ es := by
  simp [df_f, List.mem_filter, and_assoc]

/-- C8: with the country multi-select at its full default
(`sorted(df["country_name"].unique())`, line 51) and the level multi-select at
its full default, filtering is the same as filtering by the year alone: the
membership predicate on a full set is the identity. -/
theorem c8_full_default_identity (df : List Row) (y : Nat) :
    df_f df y (fullCountrySet df) (fullExpSet df) =
      df.filter (fun r => decide (r.work_year = y)) := by
  simp only [df_f]
  apply List.filter_congr
  intro r hr
  have hc : r.country_name ∈ fullCountrySet df := by
    simp only [fullCountrySet, List.mem_insertionSort, List.mem_dedup]
    exact List.mem_map_of_mem Row.country_name hr
  have he : r.experience_level ∈ fullExpSet df := by
    simp only [fullExpSet, List.mem_insertionSort, List.mem_dedup]
    exact List.mem_map_of_mem Row.experience_level hr
  simp [hc, he]


/-- C9: enrichment only adds the derived `country_name` column — every source
field of the record is unchanged — and the code-to-name mapping is idempotent:
whenever the registry's display names are themselves absent from the code
index (true of ISO names vs alpha-2 codes), re-applying `code_to_country` to
an enriched value returns it unchanged. -/
theorem c9_enrichment_pure (registry : List (String × String)) (r : SrcRow) :
    (enrich registry r).work_year = r.work_year ∧
    (enrich registry r).experience_level = r.experience_level ∧
    (enrich registry r).employee_residence = r.employee_residence ∧
    (enrich registry r).job_title = r.job_title ∧
    (enrich registry r).salary_in_usd = r.salary_in_usd ∧
    ((∀ p ∈ registry, lookupName registry p.2 = none) →
      ∀ code, code_to_country registry (code_to_country registry code) =
        code_to_country registry code) := by
  refine ⟨rfl, rfl, rfl, rfl, rfl, fun h code => ?_⟩
  cases hl : lookupName registry code with
  | none => simp [code_to_country, hl]
  | some name =>
    have hmem : ∃ p ∈ registry, p.2 = name := by
      simp only [lookupName, Option.map_eq_some'] at hl
      obtain ⟨p, hp, hpn⟩ := hl
      exact ⟨p, List.mem_of_find?_eq_some hp, hpn⟩
    obtain ⟨p, hp, rfl⟩ := hmem
    simp [code_to_country, hl, h p hp]

theorem c9_witness :
    (enrich sampleRegistry srcSample).work_year = srcSample.work_year ∧
    (enrich sampleRegistry srcSample).salary_in_usd = srcSample.salary_in_usd ∧
    code_to_country sampleRegistry (code_to_country sampleRegistry ("US")) =
      code_to_country sampleRegistry ("US") :=
  ⟨(c9_enrichment_pure sampleRegistry srcSample).1,
   (c9_enrichment_pure sampleRegistry srcSample).2.2.2.2.1,
   (c9_enrichment_pure sampleRegistry srcSample).2.2.2.2.2 (by decide) ("US")⟩

/-- C5: the aggregator's reported value is the standard statistical median of
the group's salaries: a singleton group reports its single value, the
even-count example [100,200,300,400] yields 250, the odd-count example
[100,200,300] yields 200, and every pair reported by the top-job aggregator
carries exactly the median of its group's `salary_in_usd` values. -/
theorem c5_median_standard (x : ℚ) (dff : List Row) (k : String) (v : ℚ) :
    median [x] = x ∧
    median [100, 200, 300, 400] = 250 ∧
    median [100, 200, 300] = 200 ∧
    ((k, v) ∈ job_salary dff →
      v = median ((dff.filter (fun row => decide (row.job_title = k))).map
        Row.salary_in_usd)) := by
  refine ⟨?_, ?_, ?_, fun h => ?_⟩
  · simp [median, List.insertionSort, List.orderedInsert]
  · norm_num [median, List.insertionSort, List.orderedInsert]
  · norm_num [median, List.insertionSort, List.orderedInsert]
  · have h1 : (k, v) ∈ sortValuesDesc (groupbyMedian strLE Row.job_title dff) :=
      List.mem_of_mem_take h
    exact ((mem_groupbyMedian _ _ _ _ _).mp ((mem_sortValuesDesc _ _).mp h1)).2

theorem c5_witness :
    (100 : ℚ) = median ((tieDff.filter (fun row => decide (row.job_title = "A"))).map
      Row.salary_in_usd) :=
  (c5_median_standard 7 tieDff ("A") 100).2.2.2 (by decide)

/-- C6: `.head(10)` / `.head(20)` truncation never pads and never errors: the
top-job aggregate has exactly `min 10 d` rows where `d` is the number of
distinct job titles in the filtered view, and when `d ≤ 10` it is the whole
sorted group list; likewise for the country aggregate with 20. -/
theorem c6_truncation (dff : List Row) :
    (job_salary dff).length = min 10 (dff.map Row.job_title).dedup.length ∧
    ((dff.map Row.job_title).dedup.length ≤ 10 →
      job_salary dff = sortValuesDesc (groupbyMedian strLE Row.job_title dff)) ∧
    (country_salary dff).length = min 20 (dff.map Row.country_name).dedup.length ∧
    ((dff.map Row.country_name).dedup.length ≤ 20 →
      country_salary dff = sortValuesDesc (groupbyMedian strLE Row.country_name dff)) := by
  have hj : (sortValuesDesc (groupbyMedian strLE Row.job_title dff)).length =
      (dff.map Row.job_title).dedup.length := by
    rw [length_sortValuesDesc, length_groupbyMedian]
  have hc : (sortValuesDesc (groupbyMedian strLE Row.country_name dff)).length =
      (dff.map Row.country_name).dedup.length := by
    rw [length_sortValuesDesc, length_groupbyMedian]
  refine ⟨?_, fun h => ?_, ?_, fun h => ?_⟩
  · rw [job_salary, List.length_take, hj]
  · rw [job_salary, List.take_of_length_le (by rw [hj]; exact h)]
  · rw [country_salary, List.length_take, hc]
  · rw [country_salary, List.take_of_length_le (by rw [hc]; exact h)]

theorem c6_witness :
    job_salary tieDff = sortValuesDesc (groupbyMedian strLE Row.job_title tieDff) ∧
    country_salary tieDff = sortValuesDesc (groupbyMedian strLE Row.country_name tieDff) :=
  ⟨(c6_truncation tieDff).2.1 (by decide), (c6_truncation tieDff).2.2.2 (by decide)⟩

/-- The key column of a grouped aggregate is exactly the sorted distinct key
list. -/
theorem map_fst_groupbyMedian {κ : Type} [DecidableEq κ] (r : κ → κ → Prop)
    [DecidableRel r] (key : Row → κ) (rows : List Row) :
    (groupbyMedian r key rows).map Prod.fst = groupKeys r key rows := by
  simp [groupbyMedian, List.map_map, Function.comp_def]

/-- C10: the summary card shows the job title of the first aggregate row, and
its displayed salary is the median truncated toward zero before the
thousands-separated formatting; for the non-negative medians of this data the
truncation is the floor, so a non-integer median such as 160000.5 is rounded
down, never to the nearest integer. -/
theorem c10_card_truncates (js : List (String × ℚ)) (j : String) (m : ℚ)
    (h : js.head? = some (j, m)) (hm : 0 ≤ m) :
    top_job js = some j ∧ top_salary js = some m ∧
    highestPaidCard js = some (j, ⌊m⌋) := by
  have hfloor : pyInt m = ⌊m⌋ := by
    rw [pyInt, Rat.floor_def]
    exact Int.tdiv_eq_ediv (Rat.num_nonneg.mpr hm) (by positivity)
  simp [top_job, top_salary, highestPaidCard, h, hfloor]

theorem c10_witness :
    median [150000, 170001] = (320001 : ℚ) / 2 ∧
    highestPaidCard [("Data Scientist", (320001 : ℚ) / 2)] =
      some ("Data Scientist", 160000) := by
  have h := (c10_card_truncates [("Data Scientist", (320001 : ℚ) / 2)]
    ("Data Scientist") ((320001 : ℚ) / 2) rfl (by norm_num)).2.2
  constructor
  · norm_num [median, List.insertionSort, List.orderedInsert]
  · rw [h]
    norm_num

/-- C4: the trend aggregate ignores the year and country selections — its
group set is exactly the (year, level) pairs occurring in the rows that pass
the experience-level filter alone, so all years appear — each group carries
the median of its `salary_in_usd` values, and the resulting rows are ordered
by year ascending. -/
theorem c4_trend_all_years_sorted (df : List Row) (es : List String) :
    (∀ y e, (y, e) ∈ (trend df es).map Prod.fst ↔
      ∃ r ∈ df, r.experience_level ∈ es ∧ r.work_year = y ∧ r.experience_level = e) ∧
    ((trend df es).map (fun p => p.1.1)).Pairwise (· ≤ ·) ∧
    (∀ k v, (k, v) ∈ trend df es →
      v = median (((df.filter (fun r => es.contains r.experience_level)).filter
        (fun row => decide ((row.work_year, row.experience_level) = k))).map
        Row.salary_in_usd)) := by
  refine ⟨fun y e => ?_, ?_, fun k v h => ?_⟩
  · rw [trend, map_fst_groupbyMedian, mem_groupKeys]
    simp only [List.mem_map, List.mem_filter]
    constructor
    · rintro ⟨r, ⟨hrdf, hres⟩, heq⟩
      exact ⟨r, hrdf, by simpa using hres, congrArg Prod.fst heq,
        congrArg Prod.snd heq⟩
    · rintro ⟨r, hrdf, hres, hy, he⟩
      exact ⟨r, ⟨hrdf, by simpa using hres⟩, by rw [hy, he]⟩
  · have hs := List.sorted_insertionSort pairLE
      (((df.filter (fun r => es.contains r.experience_level)).map
        (fun r => (r.work_year, r.experience_level))).dedup)
    simp only [trend, groupbyMedian, groupKeys, List.map_map, Function.comp_def]
    exact List.Pairwise.map _ (fun a b hab => by
      rcases hab with h | ⟨h, _⟩
      · exact le_of_lt h
      · exact le_of_eq h) hs
  · rw [trend] at h
    exact ((mem_groupbyMedian _ _ _ _ _).mp h).2

theorem c4_witness :
    (100 : ℚ) = median (((mixDff.filter
      (fun r => (["EN", "SE"] : List String).contains r.experience_level)).filter
      (fun row => decide ((row.work_year, row.experience_level) = (2023, "EN")))).map
      Row.salary_in_usd) :=
  (c4_trend_all_years_sorted mixDff ["EN", "SE"]).2.2 (2023, "EN") 100 (by decide)

/-- C7 counterexample: in `tieDff` the two equal-median job-title groups are
encountered in the order "A", "B", yet the top-job aggregate lists them as
"B", "A" — `groupby` first rearranges groups into ascending key order and the
descending value sort then reverses tied entries, so the original encounter
order is not preserved. -/
theorem c7_counterexample :
    (tieDff.map Row.job_title).dedup = ["A", "B"] ∧
    (job_salary tieDff).map Prod.fst = ["B", "A"] ∧
    (job_salary tieDff).map Prod.fst ≠ (tieDff.map Row.job_title).dedup := by
  refine ⟨by decide, by decide, by decide⟩

/-- In the model of `sort_values(ascending=False)`, any tied pair comes out
in reversed order regardless of the other entries' values: the stable
ascending sort keeps `p` before `q` (stability, `p.2 ≤ q.2` holds), and the
final reversal of the indexer flips them. -/
theorem sortValuesDesc_tie_reversal {κ : Type} (l : List (κ × ℚ)) (p q : κ × ℚ)
    (hv : p.2 = q.2) (hpq : List.Sublist [p, q] l) :
    List.Sublist [q, p] (sortValuesDesc l) := by
  have h1 : List.Sublist [p, q] (l.insertionSort (fun a b => a.2 ≤ b.2)) :=
    List.pair_sublist_insertionSort (le_of_eq hv) hpq
  simpa [sortValuesDesc] using h1.reverse

/-- C7 (amended): equal-median groups appear in the descending-sorted
aggregate in reverse of their ascending group-key order, not in their
encounter order: whenever group `p` precedes group `q` in the grouped list
(which `groupby` keeps in ascending key order, discarding encounter order)
and the two medians are equal, `q` precedes `p` in the descending value
sort — in the top-job aggregate and the country aggregate alike, whatever
the medians of the other groups are. -/
theorem c7_ties_reverse_key_order (dff : List Row) (p q : String × ℚ)
    (hv : p.2 = q.2) :
    (List.Sublist [p, q] (groupbyMedian strLE Row.job_title dff) →
      List.Sublist [q, p] (sortValuesDesc (groupbyMedian strLE Row.job_title dff))) ∧
    (List.Sublist [p, q] (groupbyMedian strLE Row.country_name dff) →
      List.Sublist [q, p] (sortValuesDesc (groupbyMedian strLE Row.country_name dff))) :=
  ⟨fun hpq => sortValuesDesc_tie_reversal _ p q hv hpq,
   fun hpq => sortValuesDesc_tie_reversal _ p q hv hpq⟩

theorem c7_witness :
    List.Sublist [(("B" : String), (100 : ℚ)), ("A", 100)]
      (sortValuesDesc (groupbyMedian strLE Row.job_title tieDff)) ∧
    List.Sublist [(("Y" : String), (100 : ℚ)), ("X", 100)]
      (sortValuesDesc (groupbyMedian strLE Row.country_name tieDff)) :=
  ⟨(c7_ties_reverse_key_order tieDff ("A", 100) ("B", 100) rfl).1 (by decide),
   (c7_ties_reverse_key_order tieDff ("X", 100) ("Y", 100) rfl).2 (by decide)⟩
